import Mathlib

/-!
Verification of the `i.landsat8.swlst` GRASS GIS module (split-window land
surface temperature retrieval from Landsat 8 TIRS data).

The module drives an external raster-algebra engine (`r.mapcalc`) with
textual per-pixel expressions.  The shallow embedding below models

* mapcalc expressions as a small arithmetic AST (`MapcalcExpr`) over `ℚ`
  with a no-data (`Option`) semantics, evaluated elementwise over grids;
* the module's dummy-variable substitution (`replace_dummies`, embedded
  from the source at string level, and `renameVars` at AST level);
* the mode dispatch of `main` (emissivity resolution, calibration
  branches) and the parser rules declared in the module header;
* parts of the repository that live in companion modules not shipped with
  the main source file (`split_window_lst.py`, `landsat8_mtl.py`): those
  definitions are marked `Modelled from the spec:` and follow the
  specification text.

Machine floats are modelled by exact rational arithmetic; division is the
total field division of `ℚ` on both sides of every comparison.
-/

/-- Arithmetic AST for the per-pixel expressions handed to `r.mapcalc`. -/
inductive MapcalcExpr where
  | const : ℚ → MapcalcExpr
  | var : String → MapcalcExpr
  | add : MapcalcExpr → MapcalcExpr → MapcalcExpr
  | sub : MapcalcExpr → MapcalcExpr → MapcalcExpr
  | mul : MapcalcExpr → MapcalcExpr → MapcalcExpr
  | div : MapcalcExpr → MapcalcExpr → MapcalcExpr

/-- Elementwise evaluation of a mapcalc expression in an environment that
maps raster names to the (possibly no-data) cell value at the current
pixel.  No-data (`none`) is absorbing, as in `r.mapcalc`. -/
def evalExpr (env : String → Option ℚ) : MapcalcExpr → Option ℚ
  | MapcalcExpr.const c => some c
  | MapcalcExpr.var v => env v
  | MapcalcExpr.add a b =>
    match evalExpr env a, evalExpr env b with
    | some x, some y => some (x + y)
    | _, _ => none
  | MapcalcExpr.sub a b =>
    match evalExpr env a, evalExpr env b with
    | some x, some y => some (x - y)
    | _, _ => none
  | MapcalcExpr.mul a b =>
    match evalExpr env a, evalExpr env b with
    | some x, some y => some (x * y)
    | _, _ => none
  | MapcalcExpr.div a b =>
    match evalExpr env a, evalExpr env b with
    | some x, some y => some (x / y)
    | _, _ => none

/-- Replace one variable name by another throughout an expression.  This is
the AST-level counterpart of one `str.replace` step of `replace_dummies`
acting on a well-formed expression string. -/
def renameVar (a b : String) : MapcalcExpr → MapcalcExpr
  | MapcalcExpr.const c => MapcalcExpr.const c
  | MapcalcExpr.var v => MapcalcExpr.var (if v = a then b else v)
  | MapcalcExpr.add x y => MapcalcExpr.add (renameVar a b x) (renameVar a b y)
  | MapcalcExpr.sub x y => MapcalcExpr.sub (renameVar a b x) (renameVar a b y)
  | MapcalcExpr.mul x y => MapcalcExpr.mul (renameVar a b x) (renameVar a b y)
  | MapcalcExpr.div x y => MapcalcExpr.div (renameVar a b x) (renameVar a b y)

/-- Sequential application of `(in, out)` replacement pairs, mirroring the
`reduce(lambda alpha, omega: alpha.replace(*omega), replacements, string)`
step of `replace_dummies` at the AST level. -/
def renameVars (rs : List (String × String)) (e : MapcalcExpr) : MapcalcExpr :=
  rs.foldl (fun acc p => renameVar p.1 p.2 acc) e

/-! Module-level dummy raster-name placeholders (globals of the source). -/

def DUMMY_MAPCALC_STRING_RADIANCE : String := "Radiance"

def DUMMY_MAPCALC_STRING_DN : String := "DigitalNumber"

def DUMMY_MAPCALC_STRING_T10 : String := "Input_T10"

def DUMMY_MAPCALC_STRING_T11 : String := "Input_T11"

def DUMMY_MAPCALC_STRING_AVG_LSE : String := "Input_AVG_LSE"

def DUMMY_MAPCALC_STRING_DELTA_LSE : String := "Input_DELTA_LSE"

def DUMMY_MAPCALC_STRING_CWV : String := "Input_CWV"

/-- Modelled from the spec: the quadratic split-window expression produced
by the `SplitWindowLST` object (class `SplitWindowLST` lives in the
companion module `split_window_lst.py`, which is not shipped with the main
source file).  For a selected coefficient vector `b0..b7` the expression is

LST = b0 + (b1 + b2*(1-e)/e + b3*(de/e^2)) * (Ti+Tj)/2
         + (b4 + b5*(1-e)/e + b6*(de/e^2)) * (Ti-Tj)/2
         + b7 * (Ti-Tj)^2

written over the dummy raster names `Input_T10`, `Input_T11`,
`Input_AVG_LSE` and `Input_DELTA_LSE`.  Squares appear as products because
the AST has no power operator. -/
def split_window_expression (b0 b1 b2 b3 b4 b5 b6 b7 : ℚ) : MapcalcExpr :=
  let ti := MapcalcExpr.var DUMMY_MAPCALC_STRING_T10
  let tj := MapcalcExpr.var DUMMY_MAPCALC_STRING_T11
  let ae := MapcalcExpr.var DUMMY_MAPCALC_STRING_AVG_LSE
  let de := MapcalcExpr.var DUMMY_MAPCALC_STRING_DELTA_LSE
  let term1 :=
    MapcalcExpr.add
      (MapcalcExpr.add (MapcalcExpr.const b1)
        (MapcalcExpr.mul (MapcalcExpr.const b2)
          (MapcalcExpr.div (MapcalcExpr.sub (MapcalcExpr.const 1) ae) ae)))
      (MapcalcExpr.mul (MapcalcExpr.const b3)
        (MapcalcExpr.div de (MapcalcExpr.mul ae ae)))
  let term2 :=
    MapcalcExpr.add
      (MapcalcExpr.add (MapcalcExpr.const b4)
        (MapcalcExpr.mul (MapcalcExpr.const b5)
          (MapcalcExpr.div (MapcalcExpr.sub (MapcalcExpr.const 1) ae) ae)))
      (MapcalcExpr.mul (MapcalcExpr.const b6)
        (MapcalcExpr.div de (MapcalcExpr.mul ae ae)))
  MapcalcExpr.add
    (MapcalcExpr.add
      (MapcalcExpr.add (MapcalcExpr.const b0)
        (MapcalcExpr.mul term1
          (MapcalcExpr.div (MapcalcExpr.add ti tj) (MapcalcExpr.const 2))))
      (MapcalcExpr.mul term2
        (MapcalcExpr.div (MapcalcExpr.sub ti tj) (MapcalcExpr.const 2))))
    (MapcalcExpr.mul (MapcalcExpr.const b7)
      (MapcalcExpr.mul (MapcalcExpr.sub ti tj) (MapcalcExpr.sub ti tj)))

/-- The split-window equation of the specification, as a direct rational
function of the pixel values. -/
def lst_formula (b0 b1 b2 b3 b4 b5 b6 b7 ti tj ae de : ℚ) : ℚ :=
  b0 + (b1 + b2 * (1 - ae) / ae + b3 * (de / ae ^ 2)) * (ti + tj) / 2
     + (b4 + b5 * (1 - ae) / ae + b6 * (de / ae ^ 2)) * (ti - tj) / 2
     + b7 * (ti - tj) ^ 2

/-- The dummy-replacement step of `estimate_lst` (source lines 887-907):
in map-driven mode (`landcover_map` truthy) the five dummies are replaced
by the map names in the pair order fixed by `replace_dummies` (ti, tj,
cwv, avg_lse, delta_lse); in class-fixed mode (`emissivity_class` truthy)
only ti, tj and cwv are replaced.  When both globals are falsy no branch
assigns `split_window_expression` and the subsequent use of the unbound
local fails: that failure is modelled as `none`. -/
def estimate_lst_expression (landcover_map emissivity_class : String)
    (lst_expression : MapcalcExpr)
    (t10 t11 avg_lse_map delta_lse_map cwv_map : String) : Option MapcalcExpr :=
  if landcover_map ≠ "" then
    some (renameVars
      [(DUMMY_MAPCALC_STRING_T10, t10),
       (DUMMY_MAPCALC_STRING_T11, t11),
       (DUMMY_MAPCALC_STRING_CWV, cwv_map),
       (DUMMY_MAPCALC_STRING_AVG_LSE, avg_lse_map),
       (DUMMY_MAPCALC_STRING_DELTA_LSE, delta_lse_map)] lst_expression)
  else if emissivity_class ≠ "" then
    some (renameVars
      [(DUMMY_MAPCALC_STRING_T10, t10),
       (DUMMY_MAPCALC_STRING_T11, t11),
       (DUMMY_MAPCALC_STRING_CWV, cwv_map)] lst_expression)
  else
    none

/-- `estimate_lst` (source lines 865-918): substitute the map names into
the expression from the `SplitWindowLST` object, then let `r.mapcalc`
evaluate it elementwise over the rasters.  `grid name i j` is the value of
raster `name` at pixel `(i, j)`. -/
def estimate_lst (landcover_map emissivity_class : String)
    (lst_expression : MapcalcExpr)
    (t10 t11 avg_lse_map delta_lse_map cwv_map : String)
    (grid : String → Nat → Nat → Option ℚ) :
    Option (Nat → Nat → Option ℚ) :=
  (estimate_lst_expression landcover_map emissivity_class lst_expression
      t10 t11 avg_lse_map delta_lse_map cwv_map).map
    (fun e => fun i j => evalExpr (fun v => grid v i j) e)

/-! Error taxonomy of the specification. -/

inductive SWLSTError where
  | configurationError : String → SWLSTError
deriving DecidableEq

/-- Per-band calibration constants from the scene metadata (MTL file). -/
structure CalibrationConstants where
  radiance_multiplicative : ℚ
  radiance_additive : ℚ
  k1 : ℚ
  k2 : ℚ

/-- Modelled from the spec: `Landsat8_MTL.toar_radiance` (companion module
`landsat8_mtl.py`, not shipped with the main source file) produces the
DN-to-radiance mapcalc expression
`radiance = DigitalNumber * radiance_multiplicative + radiance_additive`;
the constraint `radiance_multiplicative > 0` makes a zero or negative
scale a configuration error surfaced before any raster work. -/
def toar_radiance (c : CalibrationConstants) : Except SWLSTError MapcalcExpr :=
  if c.radiance_multiplicative ≤ 0 then
    Except.error (SWLSTError.configurationError
      "radiance_multiplicative must be positive")
  else
    Except.ok (MapcalcExpr.add
      (MapcalcExpr.mul (MapcalcExpr.var DUMMY_MAPCALC_STRING_DN)
        (MapcalcExpr.const c.radiance_multiplicative))
      (MapcalcExpr.const c.radiance_additive))

/-- `digital_numbers_to_radiance` (source lines 451-475): materialise the
radiance raster from the expression delivered by the metadata reader.  An
error from the expression constructor aborts before any output raster is
produced. -/
def digital_numbers_to_radiance (c : CalibrationConstants)
    (band : Nat → Nat → Option ℚ) :
    Except SWLSTError (Nat → Nat → Option ℚ) :=
  match toar_radiance c with
  | Except.error e => Except.error e
  | Except.ok expr =>
    Except.ok (fun i j =>
      evalExpr (fun v => if v = DUMMY_MAPCALC_STRING_DN then band i j else none) expr)

/-- The column-water-vapor estimator object (constructor arguments as in
`Column_Water_Vapor(cwv_window_size, t10, t11)`). -/
structure ColumnWaterVapor where
  window_size : Int
  ti : String
  tj : String

/-- Modelled from the spec: the window-size validation of the
`Column_Water_Vapor` class (companion module, not shipped with the main
source file).  Only window sizes 3, 5 and 7 are accepted; anything else is
a configuration error raised before any grid is read (the estimator object
needed for every grid read is never constructed). -/
def column_water_vapor_init (window_size : Int) (ti tj : String) :
    Except SWLSTError ColumnWaterVapor :=
  if window_size = 3 ∨ window_size = 5 ∨ window_size = 7 then
    Except.ok ⟨window_size, ti, tj⟩
  else
    Except.error (SWLSTError.configurationError
      "window size must be one of 3, 5, 7")

/-! Run-event trace of `main` around the emissivity-class check. -/

inductive RunEvent where
  | warning : String → RunEvent
  | fatal : String → RunEvent
  | stage : String → RunEvent
deriving DecidableEq

/-- Source lines 1066-1070: in class-fixed mode, an unknown land-cover
class (`split_window_lst.landcover_class is False`) only produces a
warning; execution is not stopped. -/
def emissivity_class_events (landcover_class_known : Bool) : List RunEvent :=
  if landcover_class_known then []
  else [RunEvent.warning "Unknown land cover class string"]

/-- The tail of `main` (source lines 1066-1126): the emissivity-class
check, then the column-water-vapor stage, then the LST stage.  Whatever
the check produced, both computation stages always run. -/
def main_after_emissivity_check (emissivity_class : String)
    (landcover_class_known : Bool) : List RunEvent :=
  (if emissivity_class ≠ "" then emissivity_class_events landcover_class_known
   else [])
  ++ [RunEvent.stage "estimate_cwv_big_expression",
      RunEvent.stage "estimate_lst"]

/-! Emissivity resolution dispatch of `main` (source lines 1066-1101). -/

inductive EmissivitySource where
  | classFixed : String → EmissivitySource
  | externalMap : String → EmissivitySource
  | lookupTable : String → EmissivitySource
  | unset : EmissivitySource
deriving DecidableEq

/-- Which data feeds the average-emissivity term: the class-fixed branch is
checked first (`if emissivity_class:`); only inside the map-driven branch
(`elif landcover_map:`) is a user-supplied `average_emissivity` raster
consulted and, when present, used instead of the lookup-table pass. -/
def average_emissivity_source (emissivity_class landcover_map
    average_emissivity_map : String) : EmissivitySource :=
  if emissivity_class ≠ "" then EmissivitySource.classFixed emissivity_class
  else if landcover_map ≠ "" then
    (if average_emissivity_map ≠ "" then
      EmissivitySource.externalMap average_emissivity_map
     else EmissivitySource.lookupTable landcover_map)
  else EmissivitySource.unset

/-- Same dispatch for the delta-emissivity term (`delta_emissivity`). -/
def delta_emissivity_source (emissivity_class landcover_map
    delta_emissivity_map : String) : EmissivitySource :=
  if emissivity_class ≠ "" then EmissivitySource.classFixed emissivity_class
  else if landcover_map ≠ "" then
    (if delta_emissivity_map ≠ "" then
      EmissivitySource.externalMap delta_emissivity_map
     else EmissivitySource.lookupTable landcover_map)
  else EmissivitySource.unset

/-! Parser-level option model.  GRASS hands every option to `main` as a
string; an option the caller did not supply is the empty string.  The
`#%rules` blocks of the module header are validated by `grass.parser()`
before `main` runs. -/

structure SWLSTOptions where
  mtl : String
  basename : String
  b10 : String
  b11 : String
  t10 : String
  t11 : String
  qab : String
  clouds : String
  landcover : String
  emissivity_class : String

/-- An option counts as given when its value is non-empty. -/
def given (s : String) : Prop := s ≠ ""

instance (s : String) : Decidable (given s) := by
  unfold given; infer_instance

/-- The `#%rules` blocks of the module header, in source order:
`requires_all: b10, mtl`; `requires_all: b11, mtl`;
`requires: b10, b11, t11`; `requires: b11, b10, t10`;
`requires: t10, t11, b11`; `requires: t11, t10, b10`;
`exclusive: b10, t10`; `exclusive: b11, t11`;
`excludes: basename-option, b10, b11, qab`; `exclusive: qab, clouds`;
`required: landcover, emissivity_class`;
`exclusive: landcover, emissivity_class`. -/
def rules_ok (o : SWLSTOptions) : Prop :=
  (given o.b10 → given o.mtl) ∧
  (given o.b11 → given o.mtl) ∧
  (given o.b10 → given o.b11 ∨ given o.t11) ∧
  (given o.b11 → given o.b10 ∨ given o.t10) ∧
  (given o.t10 → given o.t11 ∨ given o.b11) ∧
  (given o.t11 → given o.t10 ∨ given o.b10) ∧
  ¬(given o.b10 ∧ given o.t10) ∧
  ¬(given o.b11 ∧ given o.t11) ∧
  (given o.basename → ¬ given o.b10 ∧ ¬ given o.b11 ∧ ¬ given o.qab) ∧
  ¬(given o.qab ∧ given o.clouds) ∧
  (given o.landcover ∨ given o.emissivity_class) ∧
  ¬(given o.landcover ∧ given o.emissivity_class)

instance (o : SWLSTOptions) : Decidable (rules_ok o) := by
  unfold rules_ok; infer_instance

/-- Where the brightness temperature of channel 10 comes from (source
lines 1042-1047): with an MTL file and a raw `b10` band, `t10` is set to
the calibrator output; otherwise the user-supplied `t10` map is used. -/
inductive BTSource where
  | fromCalibrator : String → String → BTSource
  | supplied : String → BTSource
deriving DecidableEq

def t10_source (o : SWLSTOptions) : BTSource :=
  if given o.mtl ∧ given o.b10 then BTSource.fromCalibrator o.b10 o.mtl
  else BTSource.supplied o.t10

def t11_source (o : SWLSTOptions) : BTSource :=
  if given o.mtl ∧ given o.b11 then BTSource.fromCalibrator o.b11 o.mtl
  else BTSource.supplied o.t11

/-! String-level embedding of `replace_dummies` (source lines 579-669). -/

/-- Python `set(a) == set(b)` on key lists. -/
def sameSet (a b : List String) : Bool :=
  a.all (fun k => b.contains k) && b.all (fun k => a.contains k)

/-- Python `kwargs.get(k, 'None')`. -/
def kwget (kwargs : List (String × String)) (k : String) : String :=
  (kwargs.lookup k).getD "None"

/-- Python `reduce(lambda alpha, omega: alpha.replace(*omega),
replacements, string)`: sequential left-to-right substring substitution. -/
def applyReplacements (rs : List (String × String)) (s : String) : String :=
  rs.foldl (fun acc p => acc.replace p.1 p.2) s

def inout_keys : List String := ["instring", "outstring"]

def in_tij_out_keys : List String := ["in_ti", "out_ti", "in_tj", "out_tj"]

def in_tijm_out_keys : List String :=
  ["in_ti", "out_ti", "in_tj", "out_tj", "in_tim", "out_tim", "in_tjm", "out_tjm"]

def in_cwv_out_keys : List String :=
  ["in_ti", "out_ti", "in_tj", "out_tj", "in_cwv", "out_cwv"]

def in_lst_out_keys : List String :=
  ["in_ti", "out_ti", "in_tj", "out_tj", "in_cwv", "out_cwv",
   "in_avg_lse", "out_avg_lse", "in_delta_lse", "out_delta_lse"]

def inout_pairs (kwargs : List (String × String)) : List (String × String) :=
  [(kwget kwargs "instring", kwget kwargs "outstring")]

def tij_pairs (kwargs : List (String × String)) : List (String × String) :=
  [(kwget kwargs "in_ti", kwget kwargs "out_ti"),
   (kwget kwargs "in_tj", kwget kwargs "out_tj")]

def tijm_pairs (kwargs : List (String × String)) : List (String × String) :=
  [(kwget kwargs "in_ti", kwget kwargs "out_ti"),
   (kwget kwargs "in_tj", kwget kwargs "out_tj"),
   (kwget kwargs "in_tim", kwget kwargs "out_tim"),
   (kwget kwargs "in_tjm", kwget kwargs "out_tjm")]

def cwv_pairs (kwargs : List (String × String)) : List (String × String) :=
  [(kwget kwargs "in_ti", kwget kwargs "out_ti"),
   (kwget kwargs "in_tj", kwget kwargs "out_tj"),
   (kwget kwargs "in_cwv", kwget kwargs "out_cwv")]

def lst_pairs (kwargs : List (String × String)) : List (String × String) :=
  [(kwget kwargs "in_ti", kwget kwargs "out_ti"),
   (kwget kwargs "in_tj", kwget kwargs "out_tj"),
   (kwget kwargs "in_cwv", kwget kwargs "out_cwv"),
   (kwget kwargs "in_avg_lse", kwget kwargs "out_avg_lse"),
   (kwget kwargs "in_delta_lse", kwget kwargs "out_delta_lse")]

/-- `replace_dummies` (source lines 579-669).  Each `if` compares the
keyword-argument key set against one fixed key set and, on a match,
rebinds the local `replacements`; the final `reduce` uses whatever the
last matching branch bound.  When no branch matched, the local is unbound
and the call raises; that failure is modelled as `none`. -/
def replace_dummies (s : String) (kwargs : List (String × String)) :
    Option String :=
  let keys := kwargs.map Prod.fst
  let replacements : Option (List (String × String)) := none
  let replacements :=
    if sameSet keys inout_keys then some (inout_pairs kwargs) else replacements
  let replacements :=
    if sameSet keys in_tij_out_keys then some (tij_pairs kwargs) else replacements
  let replacements :=
    if sameSet keys in_tijm_out_keys then some (tijm_pairs kwargs) else replacements
  let replacements :=
    if sameSet keys in_cwv_out_keys then some (cwv_pairs kwargs) else replacements
  let replacements :=
    if sameSet keys in_lst_out_keys then some (lst_pairs kwargs) else replacements
  replacements.map (fun rs => applyReplacements rs s)

/-- Modelled from the spec: `Landsat8_MTL.radiance_to_temperature`
(companion module `landsat8_mtl.py`, not shipped with the main source
file): at-satellite brightness temperature from spectral radiance via
`T = K2 / ln(K1 / radiance + 1)`. -/
noncomputable def radiance_to_temperature (k1 k2 radiance : ℝ) : ℝ :=
  k2 / Real.log (k1 / radiance + 1)

/-! Concrete fixtures used by the witness theorems. -/

/-- Calibration constants with a zero radiance scale. -/
def zeroScaleConstants : CalibrationConstants :=
  ⟨0, 1/10, 7742/10, 13218/10⟩

/-- A constant raw digital-number band. -/
def dnBand : Nat → Nat → Option ℚ := fun _ _ => some 100

/-- An option set supplying pre-computed brightness temperatures for both
channels plus a land-cover map. -/
def btOptions : SWLSTOptions :=
  ⟨"", "", "", "", "bt10map", "bt11map", "", "", "from_glc", ""⟩

/-- An option set supplying neither a land-cover map nor a fixed
emissivity class. -/
def noModeOptions : SWLSTOptions :=
  ⟨"mtl.txt", "", "band10", "band11", "", "", "", "", "", ""⟩

/-- A pixel grid binding the four raster names used by the split-window
witness. -/
def witnessGrid : String → Nat → Nat → Option ℚ := fun v _ _ =>
  if v = "t10map" then some 300
  else if v = "t11map" then some 298
  else if v = "avgmap" then some (97/100)
  else if v = "deltamap" then some (1/100)
  else none

/-! Claim theorems. -/

/-- C2: for every run given raw digital-number input whose calibration
constant `radiance_multiplicative` is zero or negative, the calibration
stage fails with a ConfigurationError before producing any output raster;
the error result carries no raster, so no partial run is attempted. -/
theorem zero_scale_is_configuration_error (c : CalibrationConstants)
    (band : Nat → Nat → Option ℚ) (h : c.radiance_multiplicative ≤ 0) :
    digital_numbers_to_radiance c band =
      Except.error (SWLSTError.configurationError
        "radiance_multiplicative must be positive") := by
  simp [digital_numbers_to_radiance, toar_radiance, h]

theorem zero_scale_is_configuration_error_witness :
    zeroScaleConstants.radiance_multiplicative ≤ 0 ∧
    digital_numbers_to_radiance zeroScaleConstants dnBand =
      Except.error (SWLSTError.configurationError
        "radiance_multiplicative must be positive") :=
  ⟨by decide, zero_scale_is_configuration_error zeroScaleConstants dnBand (by decide)⟩

/-- C3: the column-water-vapor estimator accepts exactly the window sizes
3, 5 and 7; any other value yields a ConfigurationError and no estimator
object, so no grid is ever read. -/
theorem column_water_vapor_window_size_rule (w : Int) (ti tj : String) :
    (column_water_vapor_init w ti tj = Except.ok ⟨w, ti, tj⟩ ↔
      (w = 3 ∨ w = 5 ∨ w = 7)) ∧
    (column_water_vapor_init w ti tj =
        Except.error (SWLSTError.configurationError
          "window size must be one of 3, 5, 7") ↔
      ¬(w = 3 ∨ w = 5 ∨ w = 7)) := by
  by_cases h : w = 3 ∨ w = 5 ∨ w = 7 <;>
    simp [column_water_vapor_init, h]

/-- C4: with a fixed emissivity class that is not in the lookup table, the
run only records the warning `Unknown land cover class string` and then
still executes the column-water-vapor and LST stages; no fatal
configuration error is raised and the run is not stopped. -/
theorem unknown_class_warns_and_continues :
    main_after_emissivity_check "Urban" false =
      [RunEvent.warning "Unknown land cover class string",
       RunEvent.stage "estimate_cwv_big_expression",
       RunEvent.stage "estimate_lst"] := by
  decide

/-- C5 counterexample: with the fixed class `Snow` selected and an external
average-emissivity raster `ext_avg` supplied, the resolver uses the fixed
class and ignores the supplied raster, so the override does not take
precedence over class-fixed mode. -/
theorem override_ignored_in_class_mode :
    average_emissivity_source "Snow" "" "ext_avg" =
      EmissivitySource.classFixed "Snow" ∧
    average_emissivity_source "Snow" "" "ext_avg" ≠
      EmissivitySource.externalMap "ext_avg" := by
  decide

/-- C5 amended: only in map-driven mode (no fixed class, land-cover map
given) does a supplied average/delta emissivity raster bypass the
lookup-table computation and get used directly. -/
theorem override_applies_in_map_driven_mode
    (ec lc avgm deltam : String) (hec : ec = "") (hlc : lc ≠ "") :
    (avgm ≠ "" →
      average_emissivity_source ec lc avgm = EmissivitySource.externalMap avgm) ∧
    (avgm = "" →
      average_emissivity_source ec lc avgm = EmissivitySource.lookupTable lc) ∧
    (deltam ≠ "" →
      delta_emissivity_source ec lc deltam = EmissivitySource.externalMap deltam) ∧
    (deltam = "" →
      delta_emissivity_source ec lc deltam = EmissivitySource.lookupTable lc) := by
  subst hec
  refine ⟨fun h => ?_, fun h => ?_, fun h => ?_, fun h => ?_⟩ <;>
    simp [average_emissivity_source, delta_emissivity_source, hlc, h]

theorem override_applies_in_map_driven_mode_witness :
    average_emissivity_source "" "from_glc" "my_avg" =
      EmissivitySource.externalMap "my_avg" :=
  (override_applies_in_map_driven_mode "" "from_glc" "my_avg" "my_delta"
    rfl (by decide)).1 (by decide)

/-- C7: the parser rules reject a run that supplies neither a land-cover
map nor a fixed emissivity class, and a run that supplies both; rule
validation happens in `grass.parser()` before `main` starts. -/
theorem landcover_class_exactly_one (o : SWLSTOptions)
    (h : (¬ given o.landcover ∧ ¬ given o.emissivity_class) ∨
         (given o.landcover ∧ given o.emissivity_class)) :
    ¬ rules_ok o := by
  intro hok
  obtain ⟨-, -, -, -, -, -, -, -, -, -, r11, r12⟩ := hok
  rcases h with ⟨hnl, hne⟩ | hboth
  · rcases r11 with hl | he
    · exact hnl hl
    · exact hne he
  · exact r12 hboth

theorem landcover_class_exactly_one_witness : ¬ rules_ok noModeOptions :=
  landcover_class_exactly_one noModeOptions (Or.inl (by decide))

/-- C10: `estimate_lst` produces an output only when at least one of
`landcover_map` and `emissivity_class` is non-empty; with both empty the
expression local is never bound and the call fails, producing no output
raster. -/
theorem estimate_lst_requires_mode (landcover_map emissivity_class : String)
    (e : MapcalcExpr) (t10 t11 avgm deltam cwvm : String)
    (grid : String → Nat → Nat → Option ℚ) :
    estimate_lst landcover_map emissivity_class e t10 t11 avgm deltam cwvm grid
        = none ↔
      (landcover_map = "" ∧ emissivity_class = "") := by
  by_cases hlc : landcover_map = "" <;> by_cases hec : emissivity_class = "" <;>
    simp [estimate_lst, estimate_lst_expression, hlc, hec]

/-- C6: under the parser rules, no channel may receive both a raw band and
a pre-computed brightness temperature, and whenever a pre-computed
brightness temperature is supplied for a channel the calibrator branch is
skipped for that channel: the brightness temperature used downstream is
the supplied map. -/
theorem channel_exclusive_and_calibrator_bypass (o : SWLSTOptions)
    (hok : rules_ok o) :
    ¬(given o.b10 ∧ given o.t10) ∧ ¬(given o.b11 ∧ given o.t11) ∧
    (given o.t10 → t10_source o = BTSource.supplied o.t10) ∧
    (given o.t11 → t11_source o = BTSource.supplied o.t11) := by
  obtain ⟨-, -, -, -, -, -, r7, r8, -, -, -, -⟩ := hok
  refine ⟨r7, r8, fun ht => ?_, fun ht => ?_⟩
  · have hb : ¬ given o.b10 := fun hb => r7 ⟨hb, ht⟩
    unfold t10_source
    rw [if_neg (fun hc => hb hc.2)]
  · have hb : ¬ given o.b11 := fun hb => r8 ⟨hb, ht⟩
    unfold t11_source
    rw [if_neg (fun hc => hb hc.2)]

theorem channel_exclusive_and_calibrator_bypass_witness :
    rules_ok btOptions ∧
    (¬(given btOptions.b10 ∧ given btOptions.t10) ∧
     ¬(given btOptions.b11 ∧ given btOptions.t11) ∧
     (given btOptions.t10 → t10_source btOptions = BTSource.supplied btOptions.t10) ∧
     (given btOptions.t11 → t11_source btOptions = BTSource.supplied btOptions.t11)) :=
  ⟨by decide, channel_exclusive_and_calibrator_bypass btOptions (by decide)⟩

/-- C8: for positive calibration constants K1 and K2 and radiances
`0 < r1 < r2`, the brightness temperature `K2 / ln(K1 / radiance + 1)` is
strictly increasing in the radiance. -/
theorem radiance_to_temperature_strict_mono (k1 k2 r1 r2 : ℝ)
    (hk1 : 0 < k1) (hk2 : 0 < k2) (hr1 : 0 < r1) (h12 : r1 < r2) :
    radiance_to_temperature k1 k2 r1 < radiance_to_temperature k1 k2 r2 := by
  have hr2 : 0 < r2 := hr1.trans h12
  have hratio : k1 / r2 < k1 / r1 := div_lt_div_of_pos_left hk1 hr1 h12
  have hpos2 : 0 < k1 / r2 := div_pos hk1 hr2
  have hgt1 : 1 < k1 / r2 + 1 := by linarith
  have hlog2 : 0 < Real.log (k1 / r2 + 1) := Real.log_pos hgt1
  have hloglt : Real.log (k1 / r2 + 1) < Real.log (k1 / r1 + 1) :=
    Real.log_lt_log (by positivity) (by linarith)
  have := div_lt_div_of_pos_left hk2 hlog2 hloglt
  simpa [radiance_to_temperature] using this

theorem radiance_to_temperature_strict_mono_witness :
    radiance_to_temperature 1 1 1 < radiance_to_temperature 1 1 2 :=
  radiance_to_temperature_strict_mono 1 1 1 2
    zero_lt_one zero_lt_one zero_lt_one one_lt_two

/-- C9: `replace_dummies` returns the input string with the matched
branch's replacement pairs applied sequentially left to right exactly when
the keyword-argument key set equals one of the five recognized key sets
(the later branches override the earlier ones, so checking the five sets
from last to first describes the result); for every other key set the
local `replacements` stays unbound and the call fails instead of
returning the string unchanged. -/
theorem replace_dummies_keyset_characterization (s : String)
    (kwargs : List (String × String)) :
    (replace_dummies s kwargs =
      (if sameSet (kwargs.map Prod.fst) in_lst_out_keys then
        some (applyReplacements (lst_pairs kwargs) s)
       else if sameSet (kwargs.map Prod.fst) in_cwv_out_keys then
        some (applyReplacements (cwv_pairs kwargs) s)
       else if sameSet (kwargs.map Prod.fst) in_tijm_out_keys then
        some (applyReplacements (tijm_pairs kwargs) s)
       else if sameSet (kwargs.map Prod.fst) in_tij_out_keys then
        some (applyReplacements (tij_pairs kwargs) s)
       else if sameSet (kwargs.map Prod.fst) inout_keys then
        some (applyReplacements (inout_pairs kwargs) s)
       else none)) ∧
    ((replace_dummies s kwargs).isSome = true ↔
      (sameSet (kwargs.map Prod.fst) inout_keys = true ∨
       sameSet (kwargs.map Prod.fst) in_tij_out_keys = true ∨
       sameSet (kwargs.map Prod.fst) in_tijm_out_keys = true ∨
       sameSet (kwargs.map Prod.fst) in_cwv_out_keys = true ∨
       sameSet (kwargs.map Prod.fst) in_lst_out_keys = true)) := by
  constructor
  · simp only [replace_dummies]
    by_cases h1 : sameSet (kwargs.map Prod.fst) inout_keys <;>
    by_cases h2 : sameSet (kwargs.map Prod.fst) in_tij_out_keys <;>
    by_cases h3 : sameSet (kwargs.map Prod.fst) in_tijm_out_keys <;>
    by_cases h4 : sameSet (kwargs.map Prod.fst) in_cwv_out_keys <;>
    by_cases h5 : sameSet (kwargs.map Prod.fst) in_lst_out_keys <;>
      simp [h1, h2, h3, h4, h5]
  · simp only [replace_dummies]
    by_cases h1 : sameSet (kwargs.map Prod.fst) inout_keys <;>
    by_cases h2 : sameSet (kwargs.map Prod.fst) in_tij_out_keys <;>
    by_cases h3 : sameSet (kwargs.map Prod.fst) in_tijm_out_keys <;>
    by_cases h4 : sameSet (kwargs.map Prod.fst) in_cwv_out_keys <;>
    by_cases h5 : sameSet (kwargs.map Prod.fst) in_lst_out_keys <;>
      simp [h1, h2, h3, h4, h5]

/-- C1: for every pixel where the two brightness temperatures, the average
emissivity and the delta emissivity are defined, `estimate_lst` applied to
the split-window expression for a selected coefficient vector `b0..b7`
computes `LST = b0 + (b1 + b2*(1-e)/e + b3*(de/e^2))*(Ti+Tj)/2 + (b4 +
b5*(1-e)/e + b6*(de/e^2))*(Ti-Tj)/2 + b7*(Ti-Tj)^2` elementwise over the
rasters.  The freshness hypotheses say the chosen map names are not
themselves dummy placeholders, so the sequential replacement steps do not
capture each other. -/
theorem estimate_lst_split_window_formula
    (b0 b1 b2 b3 b4 b5 b6 b7 ti tj ae de : ℚ)
    (lc ec t10n t11n avgn deltan cwvn : String)
    (grid : String → Nat → Nat → Option ℚ) (i j : Nat)
    (hlc : lc ≠ "")
    (ha : t10n ≠ "Input_T11") (hb : t10n ≠ "Input_CWV")
    (hc : t11n ≠ "Input_CWV") (hd : t10n ≠ "Input_AVG_LSE")
    (he : t11n ≠ "Input_AVG_LSE") (hf : t10n ≠ "Input_DELTA_LSE")
    (hg : t11n ≠ "Input_DELTA_LSE") (hh : avgn ≠ "Input_DELTA_LSE")
    (h10 : grid t10n i j = some ti) (h11 : grid t11n i j = some tj)
    (hae : grid avgn i j = some ae) (hde : grid deltan i j = some de) :
    ∃ f, estimate_lst lc ec (split_window_expression b0 b1 b2 b3 b4 b5 b6 b7)
        t10n t11n avgn deltan cwvn grid = some f ∧
      f i j = some (lst_formula b0 b1 b2 b3 b4 b5 b6 b7 ti tj ae de) := by
  refine ⟨fun i j => evalExpr (fun v => grid v i j)
      (renameVars
        [(DUMMY_MAPCALC_STRING_T10, t10n),
         (DUMMY_MAPCALC_STRING_T11, t11n),
         (DUMMY_MAPCALC_STRING_CWV, cwvn),
         (DUMMY_MAPCALC_STRING_AVG_LSE, avgn),
         (DUMMY_MAPCALC_STRING_DELTA_LSE, deltan)]
        (split_window_expression b0 b1 b2 b3 b4 b5 b6 b7)), ?_, ?_⟩
  · simp [estimate_lst, estimate_lst_expression, hlc]
  · simp only [renameVars, List.foldl, split_window_expression, renameVar,
      DUMMY_MAPCALC_STRING_T10, DUMMY_MAPCALC_STRING_T11,
      DUMMY_MAPCALC_STRING_CWV, DUMMY_MAPCALC_STRING_AVG_LSE,
      DUMMY_MAPCALC_STRING_DELTA_LSE]
    simp only [ha, hb, hc, hd, he, hf, hg, hh, if_neg, if_pos, if_true, if_false,
      String.reduceEq, reduceIte, ite_false, ite_true]
    simp [evalExpr, h10, h11, hae, hde, lst_formula]
    ring

theorem estimate_lst_split_window_formula_witness :
    ∃ f, estimate_lst "from_glc" "" (split_window_expression 1 1 1 1 1 1 1 1)
        "t10map" "t11map" "avgmap" "deltamap" "cwvmap" witnessGrid = some f ∧
      f 0 0 = some (lst_formula 1 1 1 1 1 1 1 1 300 298 (97/100) (1/100)) :=
  estimate_lst_split_window_formula 1 1 1 1 1 1 1 1 300 298 (97/100) (1/100)
    "from_glc" "" "t10map" "t11map" "avgmap" "deltamap" "cwvmap" witnessGrid 0 0
    (by decide) (by decide) (by decide) (by decide) (by decide) (by decide)
    (by decide) (by decide) (by decide) (by simp [witnessGrid]) (by simp [witnessGrid])
    (by simp [witnessGrid]) (by simp [witnessGrid])
